import Mathlib

/-
Verification of the pairwise collision-callback logic in
src/moveit_core/collision_detection/src/fcl/collision_common.cpp.

The stateful C++ routine `collisionCallback` is embedded as a pure step
function on an explicit `CollisionData` state.  The external narrow-phase
generator (fcl) is supplied per candidate pair as the list of raw contacts
its exhaustive enumeration would produce; the three query modes of
fcl::collide are modelled on top of that list.
-/

namespace MoveitFCL

/-- Body classification, mirroring BodyTypes in the source
(ROBOT_LINK, ROBOT_ATTACHED, WORLD_OBJECT). -/
inductive BodyType
  | robotLink
  | robotAttached
  | worldObject
deriving DecidableEq, Repr

/-- CollisionGeometryData: the identity record attached to each fcl collision
geometry (id via getID, type, and for attached bodies the touch_links_ set,
modelled as a list of link names). -/
structure CollisionGeometryData where
  id : String
  type : BodyType
  touch_links : List String
deriving DecidableEq, Repr

/-- A raw fcl::Contact as returned by fcl::collide: position, normal,
penetration depth, and the two source geometries (fc.o1, fc.o2) whose user
data carries the body identities.  Numeric components are modelled as
integers; the callback logic never computes with them. -/
structure FCLContact where
  pos : Int × Int × Int
  normal : Int × Int × Int
  penetration_depth : Int
  o1 : CollisionGeometryData
  o2 : CollisionGeometryData
deriving DecidableEq, Repr

/-- collision_detection::Contact as stored into the result
(pos, normal, depth, body_name_1/2, body_type_1/2). -/
structure Contact where
  pos : Int × Int × Int
  normal : Int × Int × Int
  depth : Int
  body_name_1 : String
  body_type_1 : BodyType
  body_name_2 : String
  body_type_2 : BodyType
deriving DecidableEq, Repr

/-- fcl2contact (collision_common.cpp, lines 319-330): copies geometry data
and the two body identities in the order the generator labelled them. -/
def fcl2contact (fc : FCLContact) : Contact :=
  { pos := fc.pos
    normal := fc.normal
    depth := fc.penetration_depth
    body_name_1 := fc.o1.id
    body_type_1 := fc.o1.type
    body_name_2 := fc.o2.id
    body_type_2 := fc.o2.type }

/-- CollisionRequest fields read by the callback. -/
structure CollisionRequest where
  contacts : Bool
  max_contacts : Nat
  max_contacts_per_pair : Nat
  verbose : Bool
deriving DecidableEq, Repr

/-- The contacts map of CollisionResult: std::map from the ordered id pair
to the vector of stored contacts, modelled as an association list with
unique keys. -/
abbrev ContactMap : Type := List ((String × String) × List Contact)

/-- Lookup in the contacts map; a missing key reads as the empty vector
(matching the `find == end ? 0 : size` idiom at lines 114 and 119). -/
def mapGet : ContactMap → (String × String) → List Contact
  | [], _ => []
  | e :: rest, k => if e.1 = k then e.2 else mapGet rest k

/-- contacts[pc].push_back(c): append to the entry of key `k`, creating the
entry when absent (std::map operator[] followed by push_back). -/
def mapAppend : ContactMap → (String × String) → Contact → ContactMap
  | [], k, c => [(k, [c])]
  | e :: rest, k, c =>
    if e.1 = k then (e.1, e.2 ++ [c]) :: rest else e :: mapAppend rest k c

/-- CollisionResult: collision flag, running contact count, and the
per-pair contact map. -/
structure CollisionResult where
  collision : Bool
  contact_count : Nat
  contacts : ContactMap
deriving DecidableEq

/-- DecideContactFn: a predicate on a computed contact; `true` means the
contact is an allowed (acceptable) one. -/
abbrev DecideContactFn : Type := Contact → Bool

/-- An entry of the allowed collision matrix for a pair:
AllowedCollision::ALWAYS, AllowedCollision::NEVER, or
AllowedCollision::CONDITIONAL with its decide function. -/
inductive AllowedCollisionEntry
  | always
  | never
  | conditional (dcf : DecideContactFn)

/-- AllowedCollisionMatrix: getAllowedCollision, returning the entry for a
pair of ids when one is found. -/
structure AllowedCollisionMatrix where
  lookup : String → String → Option AllowedCollisionEntry

/-- CollisionData: the state threaded through every callback invocation
(request, result, optional acm, done flag). -/
structure CollisionData where
  req : CollisionRequest
  res : CollisionResult
  acm : Option AllowedCollisionMatrix
  done : Bool

/-- True when the acm has an ALWAYS entry for the pair
(lines 54-67 of the source). -/
def acmAlwaysAllowed (acm : Option AllowedCollisionMatrix) (id1 id2 : String) : Bool :=
  match acm with
  | none => false
  | some m =>
    match m.lookup id1 id2 with
    | some AllowedCollisionEntry.always => true
    | _ => false

/-- The decide-contact function fetched when the acm entry is CONDITIONAL
(lines 69-74 of the source). -/
def acmDcf (acm : Option AllowedCollisionMatrix) (id1 id2 : String) : Option DecideContactFn :=
  match acm with
  | none => none
  | some m =>
    match m.lookup id1 id2 with
    | some (AllowedCollisionEntry.conditional f) => some f
    | _ => none

/-- Touch-link override (lines 79-99): a robot link may touch an attached
body that lists it among its touch links, in either argument order. -/
def touchLinkAllowed (cd1 cd2 : CollisionGeometryData) : Bool :=
  if cd1.type = BodyType.robotLink ∧ cd2.type = BodyType.robotAttached then
    cd2.touch_links.contains cd1.id
  else if cd2.type = BodyType.robotLink ∧ cd1.type = BodyType.robotAttached then
    cd1.touch_links.contains cd2.id
  else false

/-- Net value of the always_allow_collision flag after the acm lookup and
the touch-link check (lines 52-99). -/
def alwaysAllowCollision (acm : Option AllowedCollisionMatrix)
    (cd1 cd2 : CollisionGeometryData) : Bool :=
  acmAlwaysAllowed acm cd1.id cd2.id || touchLinkAllowed cd1 cd2

/-- A decision procedure for lexicographic String comparison that the
kernel can evaluate (the library instance routes through the well-founded
recursion of String.ltb, which does not reduce); the proposition decided is
the library order itself. -/
instance strDecidableLT (a b : String) : Decidable (a < b) :=
  decidable_of_iff (a.toList < b.toList) String.lt_iff_toList_lt.symm

/-- The ordered pair used as storage key: (lo, hi) by lexicographic id
comparison (the `cd1->getID() < cd2->getID()` branches at lines 111-120 and
138-139). -/
def pairKey (id1 id2 : String) : String × String :=
  if id1 < id2 then (id1, id2) else (id2, id1)

/-- want_contact_count (lines 106-123): 0 unless contacts are requested and
the global count is still below max_contacts; otherwise the per-pair
headroom max_contacts_per_pair - have (0 when have is already at or above
the per-pair cap). -/
def wantContactCount (req : CollisionRequest) (res : CollisionResult)
    (id1 id2 : String) : Nat :=
  if req.contacts = true ∧ res.contact_count < req.max_contacts then
    if (mapGet res.contacts (pairKey id1 id2)).length < req.max_contacts_per_pair then
      req.max_contacts_per_pair - (mapGet res.contacts (pairKey id1 id2)).length
    else 0
  else 0

/-- Modelled from the spec: the external narrow-phase generator fcl::collide
(spec section 6), which is not part of this repository.  Given the
exhaustive contact list of a pair it offers three query modes: exhaustive
(all contacts), bounded-count (at most num_max contacts, full geometry), and
boolean-overlap (cap 1, no contact geometry returned).  The result is the
reported number of contacts together with the returned contact vector. -/
def fclCollide (raw : List FCLContact) (num_max : Nat)
    (exhaustive enable_contact : Bool) : Nat × List FCLContact :=
  if exhaustive then (raw.length, raw)
  else if enable_contact then ((raw.take num_max).length, raw.take num_max)
  else (min raw.length num_max, [])

/-- std::numeric_limits of int, max(): the cap passed for the exhaustive
query at line 131. -/
def intMax : Nat := 2 ^ 31 - 1

/-- The scan over the contacts of a CONDITIONAL pair (lines 140-159): each
contact rejected by the decide function marks a collision; while budget
remains it is also stored (under key pc) and counted; the loop breaks once
the remaining budget hits zero right after a rejection. -/
def condLoop (f : DecideContactFn) (pc : String × String) :
    List FCLContact → Nat → CollisionResult → CollisionResult
  | [], _, res => res
  | fc :: rest, want, res =>
    if f (fcl2contact fc) = false then
      if 0 < want then
        let stored : CollisionResult :=
          { collision := true
            contact_count := res.contact_count + 1
            contacts := mapAppend res.contacts pc (fcl2contact fc) }
        if want - 1 = 0 then stored else condLoop f pc rest (want - 1) stored
      else { res with collision := true }
    else condLoop f pc rest want res

/-- The storage loop of the bounded branch (lines 189-195): store each
contact under key pc and bump the global count. -/
def storeContacts (pc : String × String) :
    List FCLContact → CollisionResult → CollisionResult
  | [], res => res
  | fc :: rest, res =>
    storeContacts pc rest
      { res with
        contact_count := res.contact_count + 1
        contacts := mapAppend res.contacts pc (fcl2contact fc) }

/-- The bounded-count branch (lines 165-197): query up to `want` contacts;
on any hit, clamp the number stored to `want`, set the collision flag and
store the clamped prefix. -/
def boundedBranch (pc : String × String) (raw : List FCLContact)
    (want : Nat) (res : CollisionResult) : CollisionResult :=
  let nc := fclCollide raw want false true
  if 0 < nc.1 then
    let numStored := if want ≥ nc.1 then nc.1 else want
    storeContacts pc (nc.2.take numStored) { res with collision := true }
  else res

/-- The boolean-overlap branch (lines 198-211): cap-1 query without contact
geometry; any hit just sets the collision flag. -/
def booleanBranch (raw : List FCLContact) (res : CollisionResult) : CollisionResult :=
  let nc := fclCollide raw 1 false false
  if 0 < nc.1 then { res with collision := true } else res

/-- The three-way branch on the fetched decide function and the remaining
budget (lines 125-212). -/
def evalBranches (dcf : Option DecideContactFn) (pc : String × String)
    (raw : List FCLContact) (want : Nat) (res : CollisionResult) : CollisionResult :=
  match dcf with
  | some f =>
    let nc := fclCollide raw intMax true true
    if 0 < nc.1 then condLoop f pc nc.2 want res else res
  | none =>
    if 0 < want then boundedBranch pc raw want res else booleanBranch raw res

/-- One candidate pair handed to the callback by the broad phase: the two
geometry-data records and the exhaustive raw-contact list the narrow-phase
generator would produce for the pair. -/
structure Candidate where
  cd1 : CollisionGeometryData
  cd2 : CollisionGeometryData
  raw : List FCLContact

/-- collisionCallback (lines 43-224) as a step function: early return when
done; early return (false) when the pair is always allowed; otherwise run
the branch selected by the decide function and the budget, then set done
when a collision was found and either no contacts are wanted or the global
count reached max_contacts.  Returns the new state and the returned bool. -/
def collisionCallback (cand : Candidate) (cdata : CollisionData) :
    CollisionData × Bool :=
  if cdata.done = true then (cdata, true)
  else if alwaysAllowCollision cdata.acm cand.cd1 cand.cd2 = true then (cdata, false)
  else
    let want := wantContactCount cdata.req cdata.res cand.cd1.id cand.cd2.id
    let pc := pairKey cand.cd1.id cand.cd2.id
    let res2 := evalBranches (acmDcf cdata.acm cand.cd1.id cand.cd2.id)
      pc cand.raw want cdata.res
    let done2 : Bool :=
      if res2.collision = true ∧
          (cdata.req.contacts = false ∨ cdata.req.max_contacts ≤ res2.contact_count)
      then true else cdata.done
    ({ cdata with res := res2, done := done2 }, done2)

/-- A whole run: fold the callback over the candidate stream supplied by
the broad phase. -/
def runCalls (cands : List Candidate) (cdata : CollisionData) : CollisionData :=
  match cands with
  | [] => cdata
  | c :: rest => runCalls rest (collisionCallback c cdata).1

/-- The fresh evaluation context of one top-level collision check. -/
def initData (req : CollisionRequest) (acm : Option AllowedCollisionMatrix) :
    CollisionData :=
  { req := req
    res := { collision := false, contact_count := 0, contacts := [] }
    acm := acm
    done := false }

/-- shapes::StaticShape as consumed by the StaticShape overload of
createCollisionGeometry: a plane with its four coefficients, or any other
static shape type (carried as its enum code). -/
inductive StaticShape
  | plane (a b c d : Int)
  | unsupported (typeCode : Nat)
deriving DecidableEq, Repr

/-- The fcl geometry produced for a static shape. -/
inductive FCLStaticGeometry
  | planeGeom (a b c d : Int)
deriving DecidableEq, Repr

/-- Whether the static shape is a PLANE. -/
def StaticShape.isPlane : StaticShape → Bool
  | StaticShape.plane _ _ _ _ => true
  | StaticShape.unsupported _ => false

/-- createCollisionGeometry for static shapes (lines 226-243): builds an
fcl::Plane for PLANE; every other type only logs and leaves the geometry
pointer null, so the returned shared pointer holds null (`none`). -/
def createCollisionGeometryStatic : StaticShape → Option FCLStaticGeometry
  | StaticShape.plane a b c d => some (FCLStaticGeometry.planeGeom a b c d)
  | StaticShape.unsupported _ => none

/- ### Basic lemmas about the contacts map -/

theorem mapGet_mapAppend_self (m : ContactMap) (k : String × String) (c : Contact) :
    mapGet (mapAppend m k c) k = mapGet m k ++ [c] := by
  induction m with
  | nil => simp [mapAppend, mapGet]
  | cons e rest ih =>
    by_cases h : e.1 = k
    · simp [mapAppend, mapGet, h]
    · simp [mapAppend, mapGet, h, ih]

theorem mapGet_mapAppend_other (m : ContactMap) (k k2 : String × String) (c : Contact)
    (hk : k2 ≠ k) : mapGet (mapAppend m k c) k2 = mapGet m k2 := by
  have hk2 : ¬ k = k2 := fun h => hk h.symm
  induction m with
  | nil => simp [mapAppend, mapGet, hk2]
  | cons e rest ih =>
    by_cases h : e.1 = k
    · have h2 : ¬ e.1 = k2 := by
        rw [h]
        exact hk2
      simp [mapAppend, mapGet, h, h2, hk2]
    · by_cases h3 : e.1 = k2
      · simp [mapAppend, mapGet, h, h3, hk]
      · simp [mapAppend, mapGet, h, h3, ih]

theorem mapAppend_keys (p : String × String → Prop) (m : ContactMap)
    (k : String × String) (c : Contact)
    (hm : ∀ e ∈ m, p e.1) (hk : p k) : ∀ e ∈ mapAppend m k c, p e.1 := by
  induction m with
  | nil =>
    intro e he
    simp [mapAppend] at he
    rw [he]
    exact hk
  | cons e0 rest ih =>
    intro e he
    by_cases h : e0.1 = k
    · simp only [mapAppend, if_pos h] at he
      rcases List.mem_cons.mp he with h1 | h1
      · rw [h1]
        exact hm e0 (List.mem_cons_self e0 rest)
      · exact hm e (List.mem_cons_of_mem _ h1)
    · simp only [mapAppend, if_neg h] at he
      rcases List.mem_cons.mp he with h1 | h1
      · rw [h1]
        exact hm e0 (List.mem_cons_self e0 rest)
      · exact ih (fun x hx => hm x (List.mem_cons_of_mem _ hx)) e h1

theorem pairKey_le (id1 id2 : String) : (pairKey id1 id2).1 ≤ (pairKey id1 id2).2 := by
  unfold pairKey
  by_cases h : id1 < id2
  · rw [if_pos h]
    exact le_of_lt h
  · rw [if_neg h]
    exact le_of_not_lt h

/- ### Lemmas about the conditional-pair scan -/

theorem condLoop_count (f : DecideContactFn) (pc : String × String) :
    ∀ (l : List FCLContact) (want : Nat) (res : CollisionResult),
    (condLoop f pc l want res).contact_count ≤ res.contact_count + want := by
  intro l
  induction l with
  | nil =>
    intro want res
    simp [condLoop]
  | cons fc rest ih =>
    intro want res
    by_cases hf : f (fcl2contact fc) = false
    · by_cases hw : 0 < want
      · by_cases hb : want - 1 = 0
        · simp only [condLoop, if_pos hf, if_pos hw, if_pos hb]
          omega
        · simp only [condLoop, if_pos hf, if_pos hw, if_neg hb]
          have h2 := ih (want - 1)
            { collision := true
              contact_count := res.contact_count + 1
              contacts := mapAppend res.contacts pc (fcl2contact fc) }
          simp only at h2
          omega
      · simp only [condLoop, if_pos hf, if_neg hw]
        omega
    · simp only [condLoop, if_neg hf]
      exact ih want res

theorem condLoop_get_self (f : DecideContactFn) (pc : String × String) :
    ∀ (l : List FCLContact) (want : Nat) (res : CollisionResult),
    (mapGet (condLoop f pc l want res).contacts pc).length ≤
      (mapGet res.contacts pc).length + want := by
  intro l
  induction l with
  | nil =>
    intro want res
    simp [condLoop]
  | cons fc rest ih =>
    intro want res
    by_cases hf : f (fcl2contact fc) = false
    · by_cases hw : 0 < want
      · by_cases hb : want - 1 = 0
        · simp only [condLoop, if_pos hf, if_pos hw, if_pos hb]
          rw [mapGet_mapAppend_self]
          simp only [List.length_append, List.length_singleton]
          omega
        · simp only [condLoop, if_pos hf, if_pos hw, if_neg hb]
          have h2 := ih (want - 1)
            { collision := true
              contact_count := res.contact_count + 1
              contacts := mapAppend res.contacts pc (fcl2contact fc) }
          simp only at h2
          rw [mapGet_mapAppend_self] at h2
          simp only [List.length_append, List.length_singleton] at h2
          omega
      · simp only [condLoop, if_pos hf, if_neg hw]
        omega
    · simp only [condLoop, if_neg hf]
      exact ih want res

theorem condLoop_get_other (f : DecideContactFn) (pc k : String × String)
    (hk : k ≠ pc) :
    ∀ (l : List FCLContact) (want : Nat) (res : CollisionResult),
    mapGet (condLoop f pc l want res).contacts k = mapGet res.contacts k := by
  intro l
  induction l with
  | nil =>
    intro want res
    simp [condLoop]
  | cons fc rest ih =>
    intro want res
    by_cases hf : f (fcl2contact fc) = false
    · by_cases hw : 0 < want
      · by_cases hb : want - 1 = 0
        · simp only [condLoop, if_pos hf, if_pos hw, if_pos hb]
          exact mapGet_mapAppend_other _ _ _ _ hk
        · simp only [condLoop, if_pos hf, if_pos hw, if_neg hb]
          rw [ih]
          simp only
          exact mapGet_mapAppend_other _ _ _ _ hk
      · simp only [condLoop, if_pos hf, if_neg hw]
    · simp only [condLoop, if_neg hf]
      exact ih want res

theorem condLoop_keys (f : DecideContactFn) (pc : String × String)
    (p : String × String → Prop) (hpc : p pc) :
    ∀ (l : List FCLContact) (want : Nat) (res : CollisionResult),
    (∀ e ∈ res.contacts, p e.1) → ∀ e ∈ (condLoop f pc l want res).contacts, p e.1 := by
  intro l
  induction l with
  | nil =>
    intro want res hres
    simpa [condLoop] using hres
  | cons fc rest ih =>
    intro want res hres
    by_cases hf : f (fcl2contact fc) = false
    · by_cases hw : 0 < want
      · by_cases hb : want - 1 = 0
        · simp only [condLoop, if_pos hf, if_pos hw, if_pos hb]
          exact mapAppend_keys p _ _ _ hres hpc
        · simp only [condLoop, if_pos hf, if_pos hw, if_neg hb]
          exact ih (want - 1) _ (mapAppend_keys p _ _ _ hres hpc)
      · simpa only [condLoop, if_pos hf, if_neg hw] using hres
    · simp only [condLoop, if_neg hf]
      exact ih want res hres

theorem condLoop_accepted (f : DecideContactFn) (pc : String × String) :
    ∀ (l : List FCLContact) (want : Nat) (res : CollisionResult),
    (∀ fc ∈ l, f (fcl2contact fc) = true) → condLoop f pc l want res = res := by
  intro l
  induction l with
  | nil =>
    intro want res _
    simp [condLoop]
  | cons fc rest ih =>
    intro want res hacc
    have h1 : f (fcl2contact fc) = true := hacc fc (List.mem_cons_self fc rest)
    have h2 : ¬ f (fcl2contact fc) = false := by simp [h1]
    simp only [condLoop, if_neg h2]
    exact ih want res (fun x hx => hacc x (List.mem_cons_of_mem _ hx))

/- ### Lemmas about the bounded-branch storage loop -/

theorem storeContacts_count (pc : String × String) :
    ∀ (cs : List FCLContact) (res : CollisionResult),
    (storeContacts pc cs res).contact_count = res.contact_count + cs.length := by
  intro cs
  induction cs with
  | nil =>
    intro res
    simp [storeContacts]
  | cons fc rest ih =>
    intro res
    simp only [storeContacts]
    rw [ih]
    simp only [List.length_cons]
    omega

theorem storeContacts_get_self (pc : String × String) :
    ∀ (cs : List FCLContact) (res : CollisionResult),
    (mapGet (storeContacts pc cs res).contacts pc).length =
      (mapGet res.contacts pc).length + cs.length := by
  intro cs
  induction cs with
  | nil =>
    intro res
    simp [storeContacts]
  | cons fc rest ih =>
    intro res
    simp only [storeContacts]
    rw [ih]
    simp only [mapGet_mapAppend_self, List.length_append, List.length_singleton,
      List.length_cons, List.length_nil]
    omega

theorem storeContacts_get_other (pc k : String × String) (hk : k ≠ pc) :
    ∀ (cs : List FCLContact) (res : CollisionResult),
    mapGet (storeContacts pc cs res).contacts k = mapGet res.contacts k := by
  intro cs
  induction cs with
  | nil =>
    intro res
    simp [storeContacts]
  | cons fc rest ih =>
    intro res
    simp only [storeContacts]
    rw [ih]
    simp only
    exact mapGet_mapAppend_other _ _ _ _ hk

theorem storeContacts_keys (pc : String × String)
    (p : String × String → Prop) (hpc : p pc) :
    ∀ (cs : List FCLContact) (res : CollisionResult),
    (∀ e ∈ res.contacts, p e.1) → ∀ e ∈ (storeContacts pc cs res).contacts, p e.1 := by
  intro cs
  induction cs with
  | nil =>
    intro res hres
    simpa [storeContacts] using hres
  | cons fc rest ih =>
    intro res hres
    simp only [storeContacts]
    exact ih _ (mapAppend_keys p _ _ _ hres hpc)

theorem storeContacts_collision (pc : String × String) :
    ∀ (cs : List FCLContact) (res : CollisionResult),
    (storeContacts pc cs res).collision = res.collision := by
  intro cs
  induction cs with
  | nil =>
    intro res
    simp [storeContacts]
  | cons fc rest ih =>
    intro res
    simp only [storeContacts]
    rw [ih]

/- ### Lemmas about the three-way branch -/

theorem evalBranches_count (dcf : Option DecideContactFn) (pc : String × String)
    (raw : List FCLContact) (want : Nat) (res : CollisionResult) :
    (evalBranches dcf pc raw want res).contact_count ≤ res.contact_count + want := by
  match dcf with
  | some f =>
    simp only [evalBranches]
    by_cases h : 0 < (fclCollide raw intMax true true).1
    · rw [if_pos h]
      exact condLoop_count f pc _ want res
    · rw [if_neg h]
      omega
  | none =>
    simp only [evalBranches]
    by_cases hw : 0 < want
    · rw [if_pos hw]
      unfold boundedBranch
      by_cases h : 0 < (fclCollide raw want false true).1
      · rw [if_pos h]
        rw [storeContacts_count]
        simp only
        have hlen : ((fclCollide raw want false true).2.take
            (if want ≥ (fclCollide raw want false true).1
             then (fclCollide raw want false true).1 else want)).length ≤ want := by
          by_cases hge : want ≥ (fclCollide raw want false true).1
          · rw [if_pos hge]
            calc ((fclCollide raw want false true).2.take
                  (fclCollide raw want false true).1).length
                ≤ (fclCollide raw want false true).1 := List.length_take_le _ _
              _ ≤ want := hge
          · rw [if_neg hge]
            exact List.length_take_le _ _
        omega
      · rw [if_neg h]
        omega
    · rw [if_neg hw]
      unfold booleanBranch
      by_cases h : 0 < (fclCollide raw 1 false false).1
      · rw [if_pos h]
        exact Nat.le_add_right _ _
      · rw [if_neg h]
        exact Nat.le_add_right _ _

theorem evalBranches_get_self (dcf : Option DecideContactFn) (pc : String × String)
    (raw : List FCLContact) (want : Nat) (res : CollisionResult) :
    (mapGet (evalBranches dcf pc raw want res).contacts pc).length ≤
      (mapGet res.contacts pc).length + want := by
  match dcf with
  | some f =>
    simp only [evalBranches]
    by_cases h : 0 < (fclCollide raw intMax true true).1
    · rw [if_pos h]
      exact condLoop_get_self f pc _ want res
    · rw [if_neg h]
      omega
  | none =>
    simp only [evalBranches]
    by_cases hw : 0 < want
    · rw [if_pos hw]
      unfold boundedBranch
      by_cases h : 0 < (fclCollide raw want false true).1
      · rw [if_pos h]
        rw [storeContacts_get_self]
        simp only
        have hlen : ((fclCollide raw want false true).2.take
            (if want ≥ (fclCollide raw want false true).1
             then (fclCollide raw want false true).1 else want)).length ≤ want := by
          by_cases hge : want ≥ (fclCollide raw want false true).1
          · rw [if_pos hge]
            calc ((fclCollide raw want false true).2.take
                  (fclCollide raw want false true).1).length
                ≤ (fclCollide raw want false true).1 := List.length_take_le _ _
              _ ≤ want := hge
          · rw [if_neg hge]
            exact List.length_take_le _ _
        omega
      · rw [if_neg h]
        omega
    · rw [if_neg hw]
      unfold booleanBranch
      by_cases h : 0 < (fclCollide raw 1 false false).1
      · rw [if_pos h]
        exact Nat.le_add_right _ _
      · rw [if_neg h]
        exact Nat.le_add_right _ _

theorem evalBranches_get_other (dcf : Option DecideContactFn) (pc k : String × String)
    (hk : k ≠ pc) (raw : List FCLContact) (want : Nat) (res : CollisionResult) :
    mapGet (evalBranches dcf pc raw want res).contacts k = mapGet res.contacts k := by
  match dcf with
  | some f =>
    simp only [evalBranches]
    by_cases h : 0 < (fclCollide raw intMax true true).1
    · rw [if_pos h]
      exact condLoop_get_other f pc k hk _ want res
    · rw [if_neg h]
  | none =>
    simp only [evalBranches]
    by_cases hw : 0 < want
    · rw [if_pos hw]
      unfold boundedBranch
      by_cases h : 0 < (fclCollide raw want false true).1
      · rw [if_pos h]
        rw [storeContacts_get_other pc k hk]
      · rw [if_neg h]
    · rw [if_neg hw]
      unfold booleanBranch
      by_cases h : 0 < (fclCollide raw 1 false false).1
      · rw [if_pos h]
      · rw [if_neg h]

theorem evalBranches_keys (dcf : Option DecideContactFn) (pc : String × String)
    (p : String × String → Prop) (hpc : p pc)
    (raw : List FCLContact) (want : Nat) (res : CollisionResult)
    (hres : ∀ e ∈ res.contacts, p e.1) :
    ∀ e ∈ (evalBranches dcf pc raw want res).contacts, p e.1 := by
  match dcf with
  | some f =>
    simp only [evalBranches]
    by_cases h : 0 < (fclCollide raw intMax true true).1
    · rw [if_pos h]
      exact condLoop_keys f pc p hpc _ want res hres
    · rw [if_neg h]
      exact hres
  | none =>
    simp only [evalBranches]
    by_cases hw : 0 < want
    · rw [if_pos hw]
      unfold boundedBranch
      by_cases h : 0 < (fclCollide raw want false true).1
      · rw [if_pos h]
        exact storeContacts_keys pc p hpc _ _ hres
      · rw [if_neg h]
        exact hres
    · rw [if_neg hw]
      unfold booleanBranch
      by_cases h : 0 < (fclCollide raw 1 false false).1
      · rw [if_pos h]
        exact hres
      · rw [if_neg h]
        exact hres

/- ### Lemmas about the budget computation -/

theorem wantContactCount_pos (req : CollisionRequest) (res : CollisionResult)
    (id1 id2 : String) (h : 0 < wantContactCount req res id1 id2) :
    req.contacts = true ∧ res.contact_count < req.max_contacts ∧
      (mapGet res.contacts (pairKey id1 id2)).length +
        wantContactCount req res id1 id2 = req.max_contacts_per_pair := by
  unfold wantContactCount at h ⊢
  by_cases h1 : req.contacts = true ∧ res.contact_count < req.max_contacts
  · rw [if_pos h1] at h ⊢
    by_cases h2 : (mapGet res.contacts (pairKey id1 id2)).length < req.max_contacts_per_pair
    · rw [if_pos h2] at h ⊢
      exact ⟨h1.1, h1.2, by omega⟩
    · rw [if_neg h2] at h
      omega
  · rw [if_neg h1] at h
    omega

/- ### Step-level lemmas about collisionCallback -/

theorem collisionCallback_req (cand : Candidate) (cdata : CollisionData) :
    (collisionCallback cand cdata).1.req = cdata.req := by
  unfold collisionCallback
  by_cases h1 : cdata.done = true
  · rw [if_pos h1]
  · rw [if_neg h1]
    by_cases h2 : alwaysAllowCollision cdata.acm cand.cd1 cand.cd2 = true
    · rw [if_pos h2]
    · rw [if_neg h2]

theorem collisionCallback_acm (cand : Candidate) (cdata : CollisionData) :
    (collisionCallback cand cdata).1.acm = cdata.acm := by
  unfold collisionCallback
  by_cases h1 : cdata.done = true
  · rw [if_pos h1]
  · rw [if_neg h1]
    by_cases h2 : alwaysAllowCollision cdata.acm cand.cd1 cand.cd2 = true
    · rw [if_pos h2]
    · rw [if_neg h2]

theorem collisionCallback_count_le (cand : Candidate) (cdata : CollisionData) :
    (collisionCallback cand cdata).1.res.contact_count ≤
      cdata.res.contact_count +
        wantContactCount cdata.req cdata.res cand.cd1.id cand.cd2.id := by
  unfold collisionCallback
  by_cases h1 : cdata.done = true
  · rw [if_pos h1]
    exact Nat.le_add_right _ _
  · rw [if_neg h1]
    by_cases h2 : alwaysAllowCollision cdata.acm cand.cd1 cand.cd2 = true
    · rw [if_pos h2]
      exact Nat.le_add_right _ _
    · rw [if_neg h2]
      exact evalBranches_count _ _ _ _ _

theorem collisionCallback_get_le (cand : Candidate) (cdata : CollisionData)
    (k : String × String)
    (hinv : (mapGet cdata.res.contacts k).length ≤ cdata.req.max_contacts_per_pair) :
    (mapGet (collisionCallback cand cdata).1.res.contacts k).length ≤
      cdata.req.max_contacts_per_pair := by
  unfold collisionCallback
  by_cases h1 : cdata.done = true
  · rw [if_pos h1]
    exact hinv
  · rw [if_neg h1]
    by_cases h2 : alwaysAllowCollision cdata.acm cand.cd1 cand.cd2 = true
    · rw [if_pos h2]
      exact hinv
    · rw [if_neg h2]
      dsimp only
      by_cases hk : k = pairKey cand.cd1.id cand.cd2.id
      · rw [hk]
        have hself := evalBranches_get_self
          (acmDcf cdata.acm cand.cd1.id cand.cd2.id)
          (pairKey cand.cd1.id cand.cd2.id) cand.raw
          (wantContactCount cdata.req cdata.res cand.cd1.id cand.cd2.id) cdata.res
        by_cases hw : 0 < wantContactCount cdata.req cdata.res cand.cd1.id cand.cd2.id
        · have hpos := wantContactCount_pos cdata.req cdata.res cand.cd1.id cand.cd2.id hw
          omega
        · rw [hk] at hinv
          omega
      · have hother := evalBranches_get_other
          (acmDcf cdata.acm cand.cd1.id cand.cd2.id)
          (pairKey cand.cd1.id cand.cd2.id) k hk cand.raw
          (wantContactCount cdata.req cdata.res cand.cd1.id cand.cd2.id) cdata.res
        rw [hother]
        exact hinv

theorem collisionCallback_keys (cand : Candidate) (cdata : CollisionData)
    (p : String × String → Prop)
    (hkey : ∀ id1 id2, p (pairKey id1 id2))
    (hinv : ∀ e ∈ cdata.res.contacts, p e.1) :
    ∀ e ∈ (collisionCallback cand cdata).1.res.contacts, p e.1 := by
  unfold collisionCallback
  by_cases h1 : cdata.done = true
  · rw [if_pos h1]
    exact hinv
  · rw [if_neg h1]
    by_cases h2 : alwaysAllowCollision cdata.acm cand.cd1 cand.cd2 = true
    · rw [if_pos h2]
      exact hinv
    · rw [if_neg h2]
      exact evalBranches_keys _ _ p (hkey cand.cd1.id cand.cd2.id) _ _ _ hinv

/- ### Run-level lemmas -/

theorem runCalls_invariant (P : CollisionData → Prop)
    (hstep : ∀ cand cdata, P cdata → P (collisionCallback cand cdata).1) :
    ∀ (cands : List Candidate) (cdata : CollisionData),
    P cdata → P (runCalls cands cdata) := by
  intro cands
  induction cands with
  | nil =>
    intro cdata h
    exact h
  | cons c rest ih =>
    intro cdata h
    exact ih _ (hstep c cdata h)

theorem runCalls_req (cands : List Candidate) :
    ∀ cdata : CollisionData, (runCalls cands cdata).req = cdata.req := by
  induction cands with
  | nil =>
    intro cdata
    rfl
  | cons c rest ih =>
    intro cdata
    show (runCalls rest (collisionCallback c cdata).1).req = cdata.req
    rw [ih, collisionCallback_req]

/- ### Concrete scenario data used by counterexamples and witnesses -/

def bodyA : CollisionGeometryData :=
  { id := "a", type := BodyType.worldObject, touch_links := [] }

def bodyB : CollisionGeometryData :=
  { id := "b", type := BodyType.worldObject, touch_links := [] }

def fcAB : FCLContact :=
  { pos := (0, 0, 0), normal := (0, 0, 1), penetration_depth := 1,
    o1 := bodyA, o2 := bodyB }

def fcBA : FCLContact :=
  { pos := (0, 0, 0), normal := (0, 0, 1), penetration_depth := 1,
    o1 := bodyB, o2 := bodyA }

def reqC1 : CollisionRequest :=
  { contacts := true, max_contacts := 1, max_contacts_per_pair := 2, verbose := false }

def candC1 : Candidate := { cd1 := bodyA, cd2 := bodyB, raw := [fcAB, fcAB] }

def reqC2 : CollisionRequest :=
  { contacts := true, max_contacts := 10, max_contacts_per_pair := 10, verbose := false }

def candC2 : Candidate := { cd1 := bodyA, cd2 := bodyB, raw := [fcBA] }

/- ### Claim C1 -/

/-- Claim C1 counterexample: with want_contacts = true, max_total_contacts = 1
and max_contacts_per_pair = 2, a single evaluate call on a pair offering two
contacts stores both of them (the per-pair budget is not clamped by the
remaining global budget), ends with done = true, and leaves
total_contact_count = 2 strictly above max_total_contacts = 1. -/
theorem totalContacts_exceed_max_after_done :
    (runCalls [candC1] (initData reqC1 none)).done = true ∧
    (runCalls [candC1] (initData reqC1 none)).res.contact_count = 2 ∧
    reqC1.max_contacts = 1 := by
  decide

/-- Claim C1 (amended): for every run from a fresh context the total contact
count is bounded by max_total_contacts - 1 + max_contacts_per_pair; in
particular, once done becomes true the global cap can be overshot by at most
max_contacts_per_pair - 1, because a call admitted while the count is still
below max_total_contacts may store a full per-pair budget. -/
theorem runCalls_total_contact_bound (req : CollisionRequest)
    (acm : Option AllowedCollisionMatrix) (cands : List Candidate) :
    (runCalls cands (initData req acm)).res.contact_count ≤
      req.max_contacts - 1 + req.max_contacts_per_pair := by
  have h := runCalls_invariant
    (fun d => d.res.contact_count ≤ d.req.max_contacts - 1 + d.req.max_contacts_per_pair)
    (by
      intro cand cdata hP
      show (collisionCallback cand cdata).1.res.contact_count ≤
        (collisionCallback cand cdata).1.req.max_contacts - 1 +
        (collisionCallback cand cdata).1.req.max_contacts_per_pair
      rw [collisionCallback_req]
      have hle := collisionCallback_count_le cand cdata
      by_cases hw : 0 < wantContactCount cdata.req cdata.res cand.cd1.id cand.cd2.id
      · obtain ⟨-, hlt, heq⟩ :=
          wantContactCount_pos cdata.req cdata.res cand.cd1.id cand.cd2.id hw
        omega
      · omega)
    cands (initData req acm) (Nat.zero_le _)
  have h2 : (runCalls cands (initData req acm)).res.contact_count ≤
      (runCalls cands (initData req acm)).req.max_contacts - 1 +
      (runCalls cands (initData req acm)).req.max_contacts_per_pair := h
  rw [runCalls_req] at h2
  exact h2

/- ### Claim C2 -/

/-- Claim C2 counterexample: the generator labels the bodies in the order
(b, a); the contact is stored under the canonically ordered key ("a", "b"),
but the stored Contact record itself keeps body_name_1 = "b" and
body_name_2 = "a", so its own identity fields are not in lexicographic
order. -/
theorem stored_contact_fields_not_canonical :
    mapGet (runCalls [candC2] (initData reqC2 none)).res.contacts ("a", "b") =
      [fcl2contact fcBA] ∧
    (fcl2contact fcBA).body_name_1 = "b" ∧
    (fcl2contact fcBA).body_name_2 = "a" ∧
    ¬ (fcl2contact fcBA).body_name_1 < (fcl2contact fcBA).body_name_2 := by
  decide

/-- Claim C2 (amended): canonical lexicographic ordering holds for the key
under which every contact is stored — every key (k1, k2) present in
contacts_by_pair satisfies k1 ≤ k2, with equality only for a degenerate
self-pair — while the Contact record fields body_name_1/body_name_2 keep
whatever order the narrow-phase generator used. -/
theorem contacts_keys_ordered (req : CollisionRequest)
    (acm : Option AllowedCollisionMatrix) (cands : List Candidate) :
    ∀ e ∈ (runCalls cands (initData req acm)).res.contacts, e.1.1 ≤ e.1.2 := by
  exact runCalls_invariant
    (fun d => ∀ e ∈ d.res.contacts, e.1.1 ≤ e.1.2)
    (by
      intro cand cdata hP
      show ∀ e ∈ (collisionCallback cand cdata).1.res.contacts, e.1.1 ≤ e.1.2
      exact collisionCallback_keys cand cdata (fun k => k.1 ≤ k.2)
        (fun id1 id2 => pairKey_le id1 id2) hP)
    cands (initData req acm)
    (by
      intro e he
      simp [initData] at he)

/-- Witness for the amended claim C2, at the concrete run of the
counterexample: the key ("a", "b") the contact was stored under is
lexicographically ordered. -/
theorem contacts_keys_ordered_witness :
    ((("a", "b"), [fcl2contact fcBA]) : (String × String) × List Contact).1.1 ≤
      ((("a", "b"), [fcl2contact fcBA]) : (String × String) × List Contact).1.2 :=
  contacts_keys_ordered reqC2 none [candC2] (("a", "b"), [fcl2contact fcBA]) (by decide)

/- ### Claim C6 -/

/-- Claim C6: across an entire run from a fresh context, including duplicate
re-evaluations of the same pair, the contact sequence stored under any key
never grows beyond max_contacts_per_pair. -/
theorem perPair_contact_bound (req : CollisionRequest)
    (acm : Option AllowedCollisionMatrix) (cands : List Candidate)
    (k : String × String) :
    (mapGet (runCalls cands (initData req acm)).res.contacts k).length ≤
      req.max_contacts_per_pair := by
  have h := runCalls_invariant
    (fun d => ∀ k2, (mapGet d.res.contacts k2).length ≤ d.req.max_contacts_per_pair)
    (by
      intro cand cdata hP k2
      rw [collisionCallback_req]
      exact collisionCallback_get_le cand cdata k2 (hP k2))
    cands (initData req acm)
    (by
      intro k2
      simp [initData, mapGet])
  have h2 := h k
  rw [runCalls_req] at h2
  exact h2

/- ### Claim C3 -/

/-- Claim C3: when the pair resolves to always-allowed — whether through an
ALWAYS acm entry or through the touch-link override, including on top of a
CONDITIONAL acm entry — the call returns false and leaves the whole context
unchanged, for every possible narrow-phase outcome (the raw contact list is
universally quantified, so no generator query can influence the result). -/
theorem alwaysAllowed_no_effect (cd1 cd2 : CollisionGeometryData)
    (raw : List FCLContact) (cdata : CollisionData)
    (h1 : cdata.done = false)
    (h2 : alwaysAllowCollision cdata.acm cd1 cd2 = true) :
    collisionCallback { cd1 := cd1, cd2 := cd2, raw := raw } cdata = (cdata, false) := by
  unfold collisionCallback
  rw [if_neg (by simp [h1])]
  rw [if_pos (by exact h2)]

def linkL : CollisionGeometryData :=
  { id := "link1", type := BodyType.robotLink, touch_links := [] }

def attachedA : CollisionGeometryData :=
  { id := "obj1", type := BodyType.robotAttached, touch_links := ["link1"] }

def acmCond : AllowedCollisionMatrix :=
  { lookup := fun _ _ => some (AllowedCollisionEntry.conditional (fun _ => false)) }

def fcLA : FCLContact :=
  { pos := (0, 0, 0), normal := (0, 0, 1), penetration_depth := 1,
    o1 := linkL, o2 := attachedA }

def dataC3 : CollisionData :=
  initData { contacts := true, max_contacts := 5, max_contacts_per_pair := 5,
             verbose := false } (some acmCond)

/-- Witness for claim C3: a robot link against an attached object listing it
as a touch link, while the acm table entry for the pair is CONDITIONAL with
a reject-everything predicate; the call is still a no-op returning false. -/
theorem alwaysAllowed_no_effect_witness :
    collisionCallback { cd1 := linkL, cd2 := attachedA, raw := [fcLA] } dataC3 =
      (dataC3, false) :=
  alwaysAllowed_no_effect linkL attachedA [fcLA] dataC3 rfl (by decide)

/- ### Claim C4 -/

/-- Claim C4: for a call that reaches the contact-generation branch (done
was false and the pair was not always-allowed), the resulting done flag is
true exactly when the post-branch collision flag is set and either contacts
are not wanted or the post-branch total reached max_contacts; otherwise it
keeps its previous (false) value. -/
theorem done_iff_termination (cand : Candidate) (cdata : CollisionData)
    (h1 : cdata.done = false)
    (h2 : alwaysAllowCollision cdata.acm cand.cd1 cand.cd2 = false) :
    ((collisionCallback cand cdata).1.done = true ↔
      ((collisionCallback cand cdata).1.res.collision = true ∧
        (cdata.req.contacts = false ∨
          cdata.req.max_contacts ≤ (collisionCallback cand cdata).1.res.contact_count))) := by
  unfold collisionCallback
  rw [if_neg (by simp [h1]), if_neg (by simp [h2])]
  dsimp only
  by_cases hc : (evalBranches (acmDcf cdata.acm cand.cd1.id cand.cd2.id)
      (pairKey cand.cd1.id cand.cd2.id) cand.raw
      (wantContactCount cdata.req cdata.res cand.cd1.id cand.cd2.id) cdata.res).collision = true ∧
      (cdata.req.contacts = false ∨ cdata.req.max_contacts ≤
        (evalBranches (acmDcf cdata.acm cand.cd1.id cand.cd2.id)
          (pairKey cand.cd1.id cand.cd2.id) cand.raw
          (wantContactCount cdata.req cdata.res cand.cd1.id cand.cd2.id) cdata.res).contact_count)
  · rw [if_pos hc]
    exact ⟨fun _ => hc, fun _ => rfl⟩
  · rw [if_neg hc]
    constructor
    · intro hcontra
      rw [h1] at hcontra
      exact absurd hcontra (by simp)
    · intro hcontra
      exact absurd hcontra hc

def reqA : CollisionRequest :=
  { contacts := false, max_contacts := 1, max_contacts_per_pair := 1, verbose := false }

def dataA : CollisionData := initData reqA none

def candA : Candidate := { cd1 := bodyA, cd2 := bodyB, raw := [fcAB] }

/-- Witness for claim C4 at the concrete boolean-only scenario: a request
that does not want contacts, two overlapping bodies, no acm. -/
theorem done_iff_termination_witness :
    ((collisionCallback candA dataA).1.done = true ↔
      ((collisionCallback candA dataA).1.res.collision = true ∧
        (dataA.req.contacts = false ∨
          dataA.req.max_contacts ≤ (collisionCallback candA dataA).1.res.contact_count))) :=
  done_iff_termination candA dataA rfl (by decide)

/- ### Claim C5 -/

/-- The remaining-budget computation as the specification words it: zero
when contacts are not wanted or the total already reached max_contacts,
otherwise the per-pair cap minus the contacts already stored for the pair,
floored at zero (stated over the integers so the flooring is visible). -/
def remaining_for_pair_spec (req : CollisionRequest) (res : CollisionResult)
    (id1 id2 : String) : Int :=
  if req.contacts = false ∨ req.max_contacts ≤ res.contact_count then 0
  else
    max ((req.max_contacts_per_pair : Int) -
      ((mapGet res.contacts (pairKey id1 id2)).length : Int)) 0

/-- Claim C5: the budget computation of the source agrees with the
specification formula in every request configuration and result state. -/
theorem wantContactCount_eq_spec (req : CollisionRequest) (res : CollisionResult)
    (id1 id2 : String) :
    (wantContactCount req res id1 id2 : Int) = remaining_for_pair_spec req res id1 id2 := by
  unfold wantContactCount remaining_for_pair_spec
  by_cases h1 : req.contacts = true ∧ res.contact_count < req.max_contacts
  · have h1b : ¬ (req.contacts = false ∨ req.max_contacts ≤ res.contact_count) := by
      obtain ⟨ha, hb⟩ := h1
      intro hcontra
      rcases hcontra with h | h
      · rw [ha] at h
        simp at h
      · omega
    rw [if_pos h1, if_neg h1b]
    by_cases h2 : (mapGet res.contacts (pairKey id1 id2)).length < req.max_contacts_per_pair
    · rw [if_pos h2, max_eq_left (by omega)]
      omega
    · rw [if_neg h2, max_eq_right (by omega)]
      omega
  · have h1b : req.contacts = false ∨ req.max_contacts ≤ res.contact_count := by
      by_cases hc : req.contacts = true
      · right
        rcases not_and_or.mp h1 with h | h
        · exact absurd hc h
        · omega
      · left
        cases hcv : req.contacts with
        | false => rfl
        | true => exact absurd hcv hc
    rw [if_neg h1, if_pos h1b]
    simp

/- ### Claim C7 -/

/-- Claim C7: for a CONDITIONAL pair whose predicate accepts every contact
of the exhaustive enumeration, the call leaves the whole collision result
unchanged — the collision flag keeps its value (in particular stays false)
and nothing is stored for the pair. -/
theorem conditional_all_accepted_no_change (cd1 cd2 : CollisionGeometryData)
    (raw : List FCLContact) (cdata : CollisionData) (f : DecideContactFn)
    (h1 : cdata.done = false)
    (h2 : alwaysAllowCollision cdata.acm cd1 cd2 = false)
    (h3 : acmDcf cdata.acm cd1.id cd2.id = some f)
    (h4 : ∀ fc ∈ raw, f (fcl2contact fc) = true) :
    (collisionCallback { cd1 := cd1, cd2 := cd2, raw := raw } cdata).1.res = cdata.res := by
  unfold collisionCallback
  rw [if_neg (by simp [h1]), if_neg (by simp [h2])]
  dsimp only
  rw [h3]
  simp only [evalBranches]
  by_cases h : 0 < (fclCollide raw intMax true true).1
  · rw [if_pos h]
    apply condLoop_accepted
    intro fc hfc
    apply h4
    have hraw : (fclCollide raw intMax true true).2 = raw := by
      simp [fclCollide]
    rw [hraw] at hfc
    exact hfc
  · rw [if_neg h]

def acmAcceptAll : AllowedCollisionMatrix :=
  { lookup := fun _ _ => some (AllowedCollisionEntry.conditional (fun _ => true)) }

def dataC7 : CollisionData :=
  initData { contacts := true, max_contacts := 5, max_contacts_per_pair := 5,
             verbose := false } (some acmAcceptAll)

/-- Witness for claim C7: a conditional pair whose predicate accepts every
contact; even with an overlapping raw contact the result is unchanged, so
the collision flag stays false. -/
theorem conditional_all_accepted_no_change_witness :
    (collisionCallback { cd1 := bodyA, cd2 := bodyB, raw := [fcAB] } dataC7).1.res =
      dataC7.res :=
  conditional_all_accepted_no_change bodyA bodyB [fcAB] dataC7 (fun _ => true)
    rfl (by decide) rfl (by
      intro fc hfc
      rfl)

/- ### Claim C8 -/

/-- Claim C8: a call made while done is already true returns true at once
and leaves the whole context untouched — in particular no acm lookup and no
narrow-phase query can influence anything, since the output does not depend
on the candidate at all. -/
theorem done_short_circuit (cand : Candidate) (cdata : CollisionData)
    (h : cdata.done = true) :
    collisionCallback cand cdata = (cdata, true) := by
  unfold collisionCallback
  rw [if_pos h]

def dataDone : CollisionData :=
  { req := { contacts := true, max_contacts := 1, max_contacts_per_pair := 1,
             verbose := false }
    res := { collision := true, contact_count := 1,
             contacts := [(("a", "b"), [fcl2contact fcAB])] }
    acm := none
    done := true }

/-- Witness for claim C8 at a concrete already-done context. -/
theorem done_short_circuit_witness :
    collisionCallback { cd1 := bodyA, cd2 := bodyB, raw := [fcAB] } dataDone =
      (dataDone, true) :=
  done_short_circuit { cd1 := bodyA, cd2 := bodyB, raw := [fcAB] } dataDone rfl

/- ### Claim C9 -/

def reqSelf : CollisionRequest :=
  { contacts := true, max_contacts := 5, max_contacts_per_pair := 5, verbose := false }

def fcSelf : FCLContact :=
  { pos := (0, 0, 0), normal := (0, 0, 1), penetration_depth := 1,
    o1 := bodyA, o2 := bodyA }

/-- Claim C9 counterexample: a self-pair (both arguments the body "a") is
not rejected by any assertion or defensive check; the call proceeds through
the normal path, sets the collision flag and stores a contact under the
degenerate key ("a", "a"). -/
theorem selfPair_produces_degenerate_output :
    (collisionCallback { cd1 := bodyA, cd2 := bodyA, raw := [fcSelf] }
        (initData reqSelf none)).1.res.collision = true ∧
    mapGet (collisionCallback { cd1 := bodyA, cd2 := bodyA, raw := [fcSelf] }
        (initData reqSelf none)).1.res.contacts ("a", "a") = [fcl2contact fcSelf] := by
  decide

/-- Claim C9 (amended): the implementation contains no assertion or
defensive check against a body paired with itself; with no acm, a live
context and a non-empty narrow-phase result, the call on a self-pair
proceeds through normal evaluation and reports the collision, and the
canonical pairing degenerates to the key (id, id). -/
theorem selfPair_not_rejected (cd : CollisionGeometryData) (raw : List FCLContact)
    (cdata : CollisionData)
    (h1 : cdata.done = false) (h2 : cdata.acm = none) (h3 : raw ≠ []) :
    (collisionCallback { cd1 := cd, cd2 := cd, raw := raw } cdata).1.res.collision = true ∧
      pairKey cd.id cd.id = (cd.id, cd.id) := by
  have hkey : pairKey cd.id cd.id = (cd.id, cd.id) := by
    unfold pairKey
    rw [if_neg (lt_irrefl cd.id)]
  refine ⟨?_, hkey⟩
  have hTouch : touchLinkAllowed cd cd = false := by
    unfold touchLinkAllowed
    by_cases ht : cd.type = BodyType.robotLink ∧ cd.type = BodyType.robotAttached
    · obtain ⟨ha, hb⟩ := ht
      rw [ha] at hb
      simp at hb
    · rw [if_neg ht, if_neg ht]
  have halways : alwaysAllowCollision cdata.acm cd cd = false := by
    rw [h2]
    unfold alwaysAllowCollision
    rw [hTouch]
    rfl
  have hlen : 0 < raw.length := List.length_pos.mpr h3
  unfold collisionCallback
  rw [if_neg (by simp [h1]), if_neg (by simp [halways])]
  dsimp only
  rw [h2]
  simp only [acmDcf]
  simp only [evalBranches]
  by_cases hw : 0 < wantContactCount cdata.req cdata.res cd.id cd.id
  · rw [if_pos hw]
    unfold boundedBranch
    have hnum : 0 < (fclCollide raw
        (wantContactCount cdata.req cdata.res cd.id cd.id) false true).1 := by
      simp only [fclCollide, List.length_take]
      simp only [Bool.false_eq_true, if_false, if_true]
      omega
    rw [if_pos hnum]
    rw [storeContacts_collision]
  · rw [if_neg hw]
    unfold booleanBranch
    have hnum : 0 < (fclCollide raw 1 false false).1 := by
      simp only [fclCollide]
      simp only [Bool.false_eq_true, if_false]
      omega
    rw [if_pos hnum]

def dataSelf : CollisionData := initData reqSelf none

/-- Witness for the amended claim C9, at the concrete self-pair of the
counterexample. -/
theorem selfPair_not_rejected_witness :
    (collisionCallback { cd1 := bodyA, cd2 := bodyA, raw := [fcSelf] }
        dataSelf).1.res.collision = true ∧
      pairKey bodyA.id bodyA.id = (bodyA.id, bodyA.id) :=
  selfPair_not_rejected bodyA [fcSelf] dataSelf rfl rfl (by decide)

/- ### Claim C10 -/

/-- Claim C10: for every static shape whose type is not PLANE, geometry
creation returns the null handle (`none`) after only logging — it neither
aborts nor raises, so callers must cope with a null geometry. -/
theorem createCollisionGeometryStatic_nonPlane_none (s : StaticShape)
    (h : s.isPlane = false) : createCollisionGeometryStatic s = none := by
  cases s with
  | plane a b c d => simp [StaticShape.isPlane] at h
  | unsupported t => rfl

/-- Witness for claim C10 at a concrete unsupported static shape type. -/
theorem createCollisionGeometryStatic_nonPlane_none_witness :
    createCollisionGeometryStatic (StaticShape.unsupported 7) = none :=
  createCollisionGeometryStatic_nonPlane_none (StaticShape.unsupported 7) rfl

end MoveitFCL
